import Mathlib

/-!
Verification of the fitness-tracker core from `Final_project.py`.

The embedding models Python floats as exact rationals (`Rat`), raised
exceptions as `Except`/`Option`, optional arguments as `Option`, and the
Python dictionaries that the code indexes by string keys as association
lists or total functions mirroring the literal dictionaries.  Python's
truthiness test on an optional integer (`if heart_rate:`) is modelled by
`truthyInt`, and `sorted(..., reverse=True)` (a stable sort) is modelled
by `List.mergeSort` with a greater-or-equal comparison on the sort key.
-/

namespace FitnessTracker

/-- The `Exercise` class: name, muscle group, duration (minutes),
calories burned per minute, intensity string and equipment list. -/
structure Exercise where
  name : String
  muscle_group : String
  duration : Int
  calories_burned_per_minute : Rat
  intensity : String
  equipment_needed : List String
  deriving DecidableEq, Repr

/-- `Exercise.validate`: raises `ValueError` on non-positive duration,
non-positive calories per minute, or an intensity outside
low/medium/high. -/
def Exercise.validate (e : Exercise) : Except String Unit :=
  if e.duration ≤ 0 then Except.error "Duration must be positive"
  else if e.calories_burned_per_minute ≤ 0 then Except.error "Calories burned must be positive"
  else if e.intensity ∉ ["low", "medium", "high"] then Except.error "Invalid intensity level"
  else Except.ok ()

/-- Whether validation succeeds. -/
def Exercise.valid (e : Exercise) : Bool :=
  match e.validate with
  | Except.ok _ => true
  | Except.error _ => false

/-- The attribute assignments of `Exercise.__init__` (with
`equipment_needed or []` defaulting a missing list). -/
def mkExerciseRecord (name muscle_group : String) (duration : Int)
    (calories_burned_per_minute : Rat) (intensity : String)
    (equipment_needed : Option (List String)) : Exercise :=
  { name := name, muscle_group := muscle_group, duration := duration,
    calories_burned_per_minute := calories_burned_per_minute, intensity := intensity,
    equipment_needed := equipment_needed.getD [] }

/-- `Exercise.__init__`: stores the fields and runs `validate`, so
construction fails exactly when validation raises and never yields a
partially-valid object. -/
def mkExercise (name muscle_group : String) (duration : Int)
    (calories_burned_per_minute : Rat) (intensity : String)
    (equipment_needed : Option (List String)) : Except String Exercise :=
  match (mkExerciseRecord name muscle_group duration calories_burned_per_minute
      intensity equipment_needed).validate with
  | Except.ok _ => Except.ok (mkExerciseRecord name muscle_group duration
      calories_burned_per_minute intensity equipment_needed)
  | Except.error msg => Except.error msg

/-- Whether a construction attempt succeeded. -/
def constructionSucceeds (r : Except String Exercise) : Bool :=
  match r with
  | Except.ok _ => true
  | Except.error _ => false

/-- The literal dictionary `intensity_multipliers`; indexing with a key
outside the dictionary raises `KeyError`, hence `Option`. -/
def intensity_multipliers (intensity : String) : Option Rat :=
  if intensity = "low" then some ((4 : Rat) / 5)
  else if intensity = "medium" then some 1
  else if intensity = "high" then some ((6 : Rat) / 5)
  else none

/-- Python truthiness of an `Optional[int]`: `None` and `0` are falsy. -/
def truthyInt : Option Int → Bool
  | none => false
  | some n => n != 0

/-- `Exercise.calculate_calories_burned(weight, heart_rate)`. -/
def Exercise.calculate_calories_burned (e : Exercise) (weight : Rat)
    (heart_rate : Option Int) : Option Rat :=
  let weight_factor := weight / 70
  let base_calories := (e.duration : Rat) * e.calories_burned_per_minute * weight_factor
  match intensity_multipliers e.intensity with
  | none => none
  | some intensity_factor =>
    let heart_rate_factor : Rat :=
      if truthyInt heart_rate then
        let hr := heart_rate.getD 0
        if hr > 160 then (13 : Rat) / 10
        else if hr > 140 then (6 : Rat) / 5
        else if hr > 120 then (11 : Rat) / 10
        else 1
      else 1
    some (base_calories * intensity_factor * heart_rate_factor)

/-- Spec-side intensity table from the spec text, for comparison with
the code: 0.8 for low, 1.2 for high, otherwise 1.0. -/
def specIntensityFactor (intensity : String) : Rat :=
  if intensity = "low" then (4 : Rat) / 5
  else if intensity = "high" then (6 : Rat) / 5
  else 1

/-- Spec-side heart-rate step function from the spec text: >160 gives
1.3, >140 gives 1.2, >120 gives 1.1, otherwise (or absent) 1.0. -/
def specHeartRateFactor : Option Int → Rat
  | none => 1
  | some hr =>
    if hr > 160 then (13 : Rat) / 10
    else if hr > 140 then (6 : Rat) / 5
    else if hr > 120 then (11 : Rat) / 10
    else 1

theorem valid_iff (e : Exercise) :
    e.valid = true ↔ 0 < e.duration ∧ 0 < e.calories_burned_per_minute ∧
      (e.intensity = "low" ∨ e.intensity = "medium" ∨ e.intensity = "high") := by
  unfold Exercise.valid Exercise.validate
  split_ifs with h1 h2 h3 <;>
    simp_all [List.mem_cons, not_le]

theorem calculate_eq_spec (e : Exercise) (weight : Rat) (heart_rate : Option Int)
    (hv : e.valid = true) :
    e.calculate_calories_burned weight heart_rate =
      some (((e.duration : Rat) * e.calories_burned_per_minute * (weight / 70)) *
        specIntensityFactor e.intensity * specHeartRateFactor heart_rate) := by
  have h3 := ((valid_iff e).1 hv).2.2
  unfold Exercise.calculate_calories_burned specIntensityFactor intensity_multipliers
  rcases h3 with h | h | h <;> rw [h] <;>
    cases heart_rate with
    | none => simp [truthyInt, specHeartRateFactor]
    | some hr =>
      by_cases h0 : hr = 0
      · subst h0
        simp [truthyInt, specHeartRateFactor]
      · simp [truthyInt, h0, specHeartRateFactor, Option.getD]

/-- The `Workout` class state: exercise list, creation date (abstracted
to a number), notes, the running totals and the heart-rate log. -/
structure Workout where
  exercises : List Exercise
  date : Nat
  notes : String
  total_duration : Int
  total_calories_burned : Rat
  heart_rate_log : List Int
  deriving DecidableEq, Repr

/-- `Workout.__init__`: empty exercise list, the current date, empty
notes, zero totals, empty heart-rate log. -/
def Workout.init (date : Nat) : Workout :=
  { exercises := [], date := date, notes := "", total_duration := 0,
    total_calories_burned := 0, heart_rate_log := [] }

/-- `Workout.add_exercise(exercise, user_weight, heart_rate)`: appends
the exercise, adds its duration and its calorie result to the running
totals, and logs the heart rate when it is truthy.  `none` models the
`KeyError` raised by the calorie calculation on an invalid intensity. -/
def Workout.add_exercise (w : Workout) (exercise : Exercise) (user_weight : Rat)
    (heart_rate : Option Int) : Option Workout :=
  match exercise.calculate_calories_burned user_weight heart_rate with
  | none => none
  | some calories =>
    some { w with
      exercises := w.exercises ++ [exercise],
      total_duration := w.total_duration + exercise.duration,
      total_calories_burned := w.total_calories_burned + calories,
      heart_rate_log :=
        if truthyInt heart_rate then w.heart_rate_log ++ [heart_rate.getD 0]
        else w.heart_rate_log }

/-- One `add_exercise` call: the exercise, the user weight and the
optional heart rate passed to it. -/
abbrev AddCall := Exercise × Rat × Option Int

/-- Runs a sequence of `add_exercise` calls from a starting workout. -/
def runAddCalls : Workout → List AddCall → Option Workout
  | w, [] => some w
  | w, c :: rest =>
    match w.add_exercise c.1 c.2.1 c.2.2 with
    | none => none
    | some w2 => runAddCalls w2 rest

/-- The heart-rate sample a call contributes to the log: its heart rate
when truthy, nothing otherwise. -/
def loggedSample (c : AddCall) : Option Int :=
  if truthyInt c.2.2 then some (c.2.2.getD 0) else none

theorem add_exercise_of_valid (w : Workout) (e : Exercise) (uw : Rat)
    (hr : Option Int) (hv : e.valid = true) :
    w.add_exercise e uw hr =
      some { w with
        exercises := w.exercises ++ [e],
        total_duration := w.total_duration + e.duration,
        total_calories_burned := w.total_calories_burned +
          (((e.duration : Rat) * e.calories_burned_per_minute * (uw / 70)) *
            specIntensityFactor e.intensity * specHeartRateFactor hr),
        heart_rate_log :=
          if truthyInt hr then w.heart_rate_log ++ [hr.getD 0]
          else w.heart_rate_log } := by
  unfold Workout.add_exercise
  rw [calculate_eq_spec e uw hr hv]

theorem runAddCalls_fields (calls : List AddCall) (w : Workout)
    (hv : ∀ c ∈ calls, (c : AddCall).1.valid = true) :
    (runAddCalls w calls).map Workout.total_duration
        = some (w.total_duration + (calls.map (fun c => c.1.duration)).sum) ∧
    (runAddCalls w calls).map Workout.total_calories_burned
        = some (w.total_calories_burned +
            (calls.map (fun c =>
              (c.1.calculate_calories_burned c.2.1 c.2.2).getD 0)).sum) ∧
    (runAddCalls w calls).map Workout.heart_rate_log
        = some (w.heart_rate_log ++ calls.filterMap loggedSample) := by
  induction calls generalizing w with
  | nil => simp [runAddCalls]
  | cons c rest ih =>
    have hc : c.1.valid = true := hv c (List.mem_cons_self c rest)
    have hrest : ∀ d ∈ rest, (d : AddCall).1.valid = true :=
      fun d hd => hv d (List.mem_cons_of_mem c hd)
    have hcalc := calculate_eq_spec c.1 c.2.1 c.2.2 hc
    obtain ⟨ih1, ih2, ih3⟩ := ih _ hrest
    unfold runAddCalls
    rw [add_exercise_of_valid _ _ _ _ hc]
    refine ⟨?_, ?_, ?_⟩
    · rw [ih1]
      simp [add_assoc]
    · rw [ih2]
      simp [hcalc, loggedSample]
      ring
    · rw [ih3]
      by_cases ht : truthyInt c.2.2
      · simp [List.filterMap_cons, loggedSample, ht]
      · simp [List.filterMap_cons, loggedSample, ht]

/-- The Push-ups example from the spec. -/
def pushupsExercise : Exercise :=
  { name := "Push-ups", muscle_group := "Upper Body", duration := 10,
    calories_burned_per_minute := 5, intensity := "medium", equipment_needed := ["mat"] }

/-- A validated low-intensity exercise. -/
def lowSquatsExercise : Exercise :=
  { name := "Squats", muscle_group := "Legs", duration := 10,
    calories_burned_per_minute := 5, intensity := "low", equipment_needed := [] }

/-- Claim C1: for every validated Exercise, weight and optional heart
rate, calculate_calories_burned returns base * intensity_factor *
heart_rate_factor with base = duration * calories_per_minute *
(weight / 70), the intensity table 0.8/1.0/1.2 and the heart-rate step
function >160 to 1.3, >140 to 1.2, >120 to 1.1, else (or absent) 1.0. -/
theorem calories_burned_formula (e : Exercise) (weight : Rat) (heart_rate : Option Int)
    (hv : e.valid = true) :
    e.calculate_calories_burned weight heart_rate =
      some (((e.duration : Rat) * e.calories_burned_per_minute * (weight / 70)) *
        specIntensityFactor e.intensity * specHeartRateFactor heart_rate) :=
  calculate_eq_spec e weight heart_rate hv

/-- Witness for C1 at the Push-ups exercise, weight 70, heart rate 150. -/
theorem calories_burned_formula_witness :
    pushupsExercise.valid = true ∧
      pushupsExercise.calculate_calories_burned 70 (some 150) =
        some (((pushupsExercise.duration : Rat) * pushupsExercise.calories_burned_per_minute *
          ((70 : Rat) / 70)) * specIntensityFactor pushupsExercise.intensity *
          specHeartRateFactor (some 150)) :=
  ⟨by decide, calories_burned_formula pushupsExercise 70 (some 150) (by decide)⟩

/-- Claim C2 counterexample: a validated low-intensity exercise at the
baseline weight 70 with no heart rate yields 40, not
duration * calories_burned_per_minute = 50, because the intensity
factor 0.8 still applies. -/
theorem baseline_low_intensity_counterexample :
    lowSquatsExercise.valid = true ∧
      lowSquatsExercise.calculate_calories_burned 70 none = some 40 ∧
      ((40 : Rat) ≠
        (lowSquatsExercise.duration : Rat) * lowSquatsExercise.calories_burned_per_minute) := by
  refine ⟨by decide, ?_, by norm_num [lowSquatsExercise]⟩
  rw [calculate_eq_spec lowSquatsExercise 70 none (by decide)]
  simp [lowSquatsExercise, specIntensityFactor, specHeartRateFactor]
  norm_num

/-- Claim C2 (amended): for every validated exercise with intensity
"medium", weight 70 and no heart rate give exactly
duration * calories_burned_per_minute; and the Push-ups example gives
50 without heart rate and 60 with heart rate 150. -/
theorem baseline_weight_medium (e : Exercise) (hv : e.valid = true)
    (hm : e.intensity = "medium") :
    e.calculate_calories_burned 70 none =
        some ((e.duration : Rat) * e.calories_burned_per_minute) ∧
    pushupsExercise.calculate_calories_burned 70 none = some 50 ∧
    pushupsExercise.calculate_calories_burned 70 (some 150) = some 60 := by
  refine ⟨?_, ?_, ?_⟩
  · rw [calculate_eq_spec e 70 none hv, hm]
    have h1 : specIntensityFactor "medium" = 1 := by simp [specIntensityFactor]
    have h2 : ((70 : Rat) / 70) = 1 := by norm_num
    simp [h1, h2, specHeartRateFactor]
  · rw [calculate_eq_spec pushupsExercise 70 none (by decide)]
    simp [pushupsExercise, specIntensityFactor, specHeartRateFactor]
    norm_num
  · rw [calculate_eq_spec pushupsExercise 70 (some 150) (by decide)]
    simp [pushupsExercise, specIntensityFactor, specHeartRateFactor]
    norm_num

/-- Witness for the amended C2 at the Push-ups exercise. -/
theorem baseline_weight_medium_witness :
    pushupsExercise.calculate_calories_burned 70 none =
        some ((pushupsExercise.duration : Rat) * pushupsExercise.calories_burned_per_minute) ∧
    pushupsExercise.calculate_calories_burned 70 none = some 50 ∧
    pushupsExercise.calculate_calories_burned 70 (some 150) = some 60 :=
  baseline_weight_medium pushupsExercise (by decide) rfl

/-- A single call supplying the heart-rate sample 0. -/
def zeroHeartRateCalls : List AddCall := [(pushupsExercise, 70, some 0)]

/-- A two-call demonstration sequence. -/
def demoCalls : List AddCall :=
  [(pushupsExercise, 70, some 150), (lowSquatsExercise, 80, none)]

/-- Claim C3 counterexample: the single add_exercise call supplies the
heart-rate sample 0 (so one call supplied a sample), yet the resulting
heart-rate log is empty, because the code tests Python truthiness and 0
is falsy. -/
theorem heart_rate_log_counterexample :
    (zeroHeartRateCalls.countP (fun c => c.2.2.isSome)) = 1 ∧
    (runAddCalls (Workout.init 0) zeroHeartRateCalls).map Workout.heart_rate_log
        = some [] :=
  ⟨by decide, by decide⟩

/-- Claim C3 (amended): starting from the empty workout, any finite
sequence of add_exercise calls on validated exercises yields a stored
total duration equal to the sum of the durations, a stored total
calories equal to the sum of the per-call calculate_calories_burned
results, and a heart-rate log holding exactly the truthy (nonzero)
heart-rate samples supplied, in call order. -/
theorem workout_aggregation (date : Nat) (calls : List AddCall)
    (hv : ∀ c ∈ calls, (c : AddCall).1.valid = true) :
    (runAddCalls (Workout.init date) calls).map Workout.total_duration
        = some ((calls.map (fun c => c.1.duration)).sum) ∧
    (runAddCalls (Workout.init date) calls).map Workout.total_calories_burned
        = some ((calls.map (fun c =>
            (c.1.calculate_calories_burned c.2.1 c.2.2).getD 0)).sum) ∧
    (runAddCalls (Workout.init date) calls).map Workout.heart_rate_log
        = some (calls.filterMap loggedSample) := by
  obtain ⟨h1, h2, h3⟩ := runAddCalls_fields calls (Workout.init date) hv
  refine ⟨?_, ?_, ?_⟩
  · rw [h1]; simp [Workout.init]
  · rw [h2]; simp [Workout.init]
  · rw [h3]; simp [Workout.init]

/-- Witness for the amended C3 on a concrete two-call sequence. -/
theorem workout_aggregation_witness :
    (runAddCalls (Workout.init 0) demoCalls).map Workout.total_duration
        = some ((demoCalls.map (fun c => c.1.duration)).sum) ∧
    (runAddCalls (Workout.init 0) demoCalls).map Workout.total_calories_burned
        = some ((demoCalls.map (fun c =>
            (c.1.calculate_calories_burned c.2.1 c.2.2).getD 0)).sum) ∧
    (runAddCalls (Workout.init 0) demoCalls).map Workout.heart_rate_log
        = some (demoCalls.filterMap loggedSample) :=
  workout_aggregation 0 demoCalls (by decide)

theorem mkExercise_succeeds_eq_valid (nm mg : String) (d : Int) (cpm : Rat)
    (i : String) (eqp : Option (List String)) :
    constructionSucceeds (mkExercise nm mg d cpm i eqp) =
      (mkExerciseRecord nm mg d cpm i eqp).valid := by
  unfold mkExercise constructionSucceeds Exercise.valid
  cases hval : (mkExerciseRecord nm mg d cpm i eqp).validate <;> simp

/-- Claim C7: construction fails exactly when duration is non-positive,
calories per minute is non-positive, or the intensity is unrecognized;
a successful construction always yields a fully validated object (no
partially-valid object escapes); and the three example constructions
from the spec fail. -/
theorem exercise_validation :
    (∀ (nm mg : String) (d : Int) (cpm : Rat) (i : String) (eqp : Option (List String)),
        constructionSucceeds (mkExercise nm mg d cpm i eqp) = false ↔
          (d ≤ 0 ∨ cpm ≤ 0 ∨ (i ≠ "low" ∧ i ≠ "medium" ∧ i ≠ "high"))) ∧
    (∀ (nm mg : String) (d : Int) (cpm : Rat) (i : String) (eqp : Option (List String))
        (e : Exercise), mkExercise nm mg d cpm i eqp = Except.ok e → e.valid = true) ∧
    constructionSucceeds (mkExercise "Push-ups" "Upper Body" (-1) 5 "medium" none) = false ∧
    constructionSucceeds (mkExercise "Push-ups" "Upper Body" 10 0 "medium" none) = false ∧
    constructionSucceeds (mkExercise "Push-ups" "Upper Body" 10 5 "extreme" none) = false := by
  refine ⟨?_, ?_, by decide, by decide, by decide⟩
  · intro nm mg d cpm i eqp
    rw [mkExercise_succeeds_eq_valid, Bool.eq_false_iff, Ne, valid_iff]
    simp only [mkExerciseRecord, not_and_or, not_lt, not_or]
  · intro nm mg d cpm i eqp e h
    unfold mkExercise at h
    cases hval : (mkExerciseRecord nm mg d cpm i eqp).validate with
    | ok u =>
      rw [hval] at h
      simp only [] at h
      cases h
      simp [Exercise.valid, hval]
    | error m =>
      rw [hval] at h
      simp at h

/-- Witness for C7: the successful Push-ups construction produces a
validated object. -/
theorem exercise_validation_witness : pushupsExercise.valid = true :=
  exercise_validation.2.1 "Push-ups" "Upper Body" 10 5 "medium" (some ["mat"])
    pushupsExercise (by rfl)

/-- Claim C8: at any fixed positive weight, for a validated exercise,
the calorie results at heart rates 130, 145, 165 are strictly positive
and strictly increasing. -/
theorem heart_rate_monotonicity (e : Exercise) (weight : Rat)
    (hv : e.valid = true) (hw : 0 < weight) :
    ∃ c130 c145 c165 : Rat,
      e.calculate_calories_burned weight (some 130) = some c130 ∧
      e.calculate_calories_burned weight (some 145) = some c145 ∧
      e.calculate_calories_burned weight (some 165) = some c165 ∧
      0 < c130 ∧ c130 < c145 ∧ c145 < c165 := by
  obtain ⟨hd, hc, hi⟩ := (valid_iff e).1 hv
  have hd2 : (0 : Rat) < (e.duration : Rat) := by exact_mod_cast hd
  have hbase : 0 < (e.duration : Rat) * e.calories_burned_per_minute * (weight / 70) :=
    mul_pos (mul_pos hd2 hc) (div_pos hw (by norm_num))
  have hint : 0 < specIntensityFactor e.intensity := by
    rcases hi with h | h | h <;> rw [h] <;> simp [specIntensityFactor]
  have hBi : 0 < (e.duration : Rat) * e.calories_burned_per_minute * (weight / 70) *
      specIntensityFactor e.intensity := mul_pos hbase hint
  have h130 : specHeartRateFactor (some 130) = (11 : Rat) / 10 := by
    norm_num [specHeartRateFactor]
  have h145 : specHeartRateFactor (some 145) = (6 : Rat) / 5 := by
    norm_num [specHeartRateFactor]
  have h165 : specHeartRateFactor (some 165) = (13 : Rat) / 10 := by
    norm_num [specHeartRateFactor]
  refine ⟨_, _, _, calculate_eq_spec e weight (some 130) hv,
    calculate_eq_spec e weight (some 145) hv,
    calculate_eq_spec e weight (some 165) hv, ?_, ?_, ?_⟩
  · rw [h130]
    exact mul_pos hBi (by norm_num)
  · rw [h130, h145]
    exact mul_lt_mul_of_pos_left (by norm_num) hBi
  · rw [h145, h165]
    exact mul_lt_mul_of_pos_left (by norm_num) hBi

/-- Witness for C8 at the Push-ups exercise and weight 80. -/
theorem heart_rate_monotonicity_witness :
    ∃ c130 c145 c165 : Rat,
      pushupsExercise.calculate_calories_burned 80 (some 130) = some c130 ∧
      pushupsExercise.calculate_calories_burned 80 (some 145) = some c145 ∧
      pushupsExercise.calculate_calories_burned 80 (some 165) = some c165 ∧
      0 < c130 ∧ c130 < c145 ∧ c145 < c165 :=
  heart_rate_monotonicity pushupsExercise 80 (by decide) (by decide)

/-- Claim C10: supplying heart rate 0 is indistinguishable from
supplying no heart rate: the calorie result is identical for every
exercise and weight, and add_exercise produces the same workout state,
in particular appending nothing to the heart-rate log. -/
theorem zero_heart_rate_absent :
    (∀ (e : Exercise) (weight : Rat),
        e.calculate_calories_burned weight (some 0) =
          e.calculate_calories_burned weight none) ∧
    (∀ (w : Workout) (e : Exercise) (uw : Rat),
        w.add_exercise e uw (some 0) = w.add_exercise e uw none) := by
  have hcalc : ∀ (e : Exercise) (weight : Rat),
      e.calculate_calories_burned weight (some 0) =
        e.calculate_calories_burned weight none := by
    intro e weight
    unfold Exercise.calculate_calories_burned
    simp [truthyInt]
  refine ⟨hcalc, ?_⟩
  intro w e uw
  unfold Workout.add_exercise
  rw [hcalc e uw]
  simp [truthyInt]

/-- A goal record stored in `User.goals`: target value, deadline, start
date and the metric value at goal creation. -/
structure Goal where
  target : Rat
  deadline : Nat
  start_date : Nat
  start_value : Rat
  deriving DecidableEq, Repr

/-- One entry of `User.progress_history`. -/
structure ProgressEntry where
  date : Nat
  calories : Rat
  duration : Int
  deriving DecidableEq, Repr

/-- The `User` class state. -/
structure User where
  name : String
  weight : Rat
  height : Option Rat
  age : Option Int
  fitness_level : String
  workouts : List Workout
  goals : List (String × Goal)
  progress_history : List ProgressEntry
  deriving DecidableEq, Repr

/-- `User.__init__`: empty workout list, goal dictionary and progress
history. -/
def mkUser (name : String) (weight : Rat) (height : Option Rat) (age : Option Int)
    (fitness_level : String) : User :=
  { name := name, weight := weight, height := height, age := age,
    fitness_level := fitness_level, workouts := [], goals := [],
    progress_history := [] }

/-- `User._get_current_value(goal_type)`: calories sums the summary
totals of every stored workout, workouts counts the stored workouts,
anything else is 0. -/
def User.get_current_value (u : User) (goal_type : String) : Rat :=
  if goal_type = "calories" then (u.workouts.map Workout.total_calories_burned).sum
  else if goal_type = "workouts" then ((u.workouts.length : Nat) : Rat)
  else 0

/-- Python dictionary assignment `self.goals[goal_type] = ...` on the
insertion-ordered dictionary, modelled on an association list: an
existing key is overwritten in place, a new key is appended. -/
def setAssoc : List (String × Goal) → String → Goal → List (String × Goal)
  | [], k, v => [(k, v)]
  | (k2, v2) :: rest, k, v =>
    if k2 = k then (k, v) :: rest else (k2, v2) :: setAssoc rest k v

/-- `User.set_goal(goal_type, target, deadline)`: records the goal with
the current metric value as its start value; every target is accepted,
including one equal to the start value. -/
def User.set_goal (u : User) (goal_type : String) (target : Rat)
    (deadline start_date : Nat) : User :=
  let g : Goal :=
    { target := target, deadline := deadline, start_date := start_date,
      start_value := u.get_current_value goal_type }
  { u with goals := setAssoc u.goals goal_type g }

/-- `User._check_goals`: the goal types whose achievement is signalled
(logged), in dictionary order; `none` when some goal's progress ratio
has a zero denominator, in which case Python raises
`ZeroDivisionError`. -/
def check_goals_list (u : User) : List (String × Goal) → Option (List String)
  | [] => some []
  | (goal_type, goal) :: rest =>
    if goal.target - goal.start_value = 0 then none
    else
      match check_goals_list u rest with
      | none => none
      | some l =>
        some (if 1 ≤ (u.get_current_value goal_type - goal.start_value) /
            (goal.target - goal.start_value) then goal_type :: l else l)

/-- `_check_goals` over the stored goal dictionary. -/
def User.check_goals (u : User) : Option (List String) :=
  check_goals_list u u.goals

/-- `User._update_progress_history(workout)`: one appended entry
holding the just-added workout summary totals. -/
def User.update_progress_history (u : User) (w : Workout) : User :=
  { u with progress_history := u.progress_history ++
      [{ date := w.date, calories := w.total_calories_burned,
         duration := w.total_duration }] }

/-- `User.add_workout(workout)`: appends to the history, appends the
progress entry, then checks every goal; returns the new state together
with the achievement signals (`none` when goal checking raises). -/
def User.add_workout (u : User) (w : Workout) : User × Option (List String) :=
  let u2 := User.update_progress_history { u with workouts := u.workouts ++ [w] } w
  (u2, u2.check_goals)

theorem check_goals_list_eq (u : User) (gs : List (String × Goal))
    (hnz : ∀ p ∈ gs, (p : String × Goal).2.target ≠ p.2.start_value) :
    check_goals_list u gs = some ((gs.filter (fun p =>
      decide (1 ≤ (u.get_current_value p.1 - p.2.start_value) /
        (p.2.target - p.2.start_value)))).map Prod.fst) := by
  induction gs with
  | nil => simp [check_goals_list]
  | cons p rest ih =>
    have hp : ¬ (p.2.target - p.2.start_value = 0) :=
      sub_ne_zero_of_ne (hnz p (List.mem_cons_self p rest))
    have hrest := ih (fun q hq => hnz q (List.mem_cons_of_mem p hq))
    obtain ⟨gt, g⟩ := p
    unfold check_goals_list
    rw [if_neg hp, hrest]
    by_cases hach : 1 ≤ (u.get_current_value gt - g.start_value) /
        (g.target - g.start_value)
    · simp [List.filter_cons, hach]
    · simp [List.filter_cons, hach]

theorem check_goals_list_none (u : User) (gs : List (String × Goal))
    (gt : String) (g : Goal) (hmem : (gt, g) ∈ gs)
    (heq : g.target = g.start_value) :
    check_goals_list u gs = none := by
  induction gs with
  | nil => cases hmem
  | cons p rest ih =>
    obtain ⟨k, v⟩ := p
    unfold check_goals_list
    rcases List.mem_cons.1 hmem with hp | hp
    · cases hp
      rw [if_pos (sub_eq_zero_of_eq heq)]
    · by_cases hz : v.target - v.start_value = 0
      · rw [if_pos hz]
      · rw [if_neg hz, ih hp]

/-- Claim C5: after add_workout every stored goal is re-evaluated from
the entire workout history (metric calories sums all stored workouts'
totals, metric workouts counts them), and the achievement signals are
exactly the goals whose progress ratio (current - start) / (target -
start) is at least 1.  Stated for goals whose target differs from the
recorded start value, the only case in which the Python division is
defined (the other case is the division-by-zero claim). -/
theorem goal_evaluation (u : User) (w : Workout)
    (hnz : ∀ p ∈ u.goals, (p : String × Goal).2.target ≠ p.2.start_value) :
    (u.add_workout w).2 = some ((u.goals.filter (fun p =>
        decide (1 ≤ ((u.add_workout w).1.get_current_value p.1 - p.2.start_value) /
          (p.2.target - p.2.start_value)))).map Prod.fst) ∧
    (u.add_workout w).1.get_current_value "calories"
        = ((u.workouts ++ [w]).map Workout.total_calories_burned).sum ∧
    (u.add_workout w).1.get_current_value "workouts"
        = (((u.workouts ++ [w]).length : Nat) : Rat) := by
  refine ⟨?_, ?_, ?_⟩
  · exact check_goals_list_eq (u.add_workout w).1 u.goals hnz
  · rfl
  · rfl

/-- A user with a 1000-calorie goal recorded from start value 0. -/
def demoUser : User :=
  (mkUser "Ana" 70 none none "intermediate").set_goal "calories" 1000 30 0

/-- A workout totalling 1000 calories in 45 minutes. -/
def demoWorkout : Workout :=
  { exercises := [], date := 3, notes := "", total_duration := 45,
    total_calories_burned := 1000, heart_rate_log := [] }

/-- Witness for C5: logging a 1000-calorie workout against the
1000-calorie goal signals the achievement. -/
theorem goal_evaluation_witness :
    (demoUser.add_workout demoWorkout).2 = some ["calories"] := by
  have h := (goal_evaluation demoUser demoWorkout (by decide)).1
  rw [h]
  norm_num [demoUser, demoWorkout, mkUser, User.set_goal, setAssoc,
    User.add_workout, User.update_progress_history, User.get_current_value,
    List.filter_cons]

/-- Claim C6: whenever a stored goal has target equal to its recorded
start value, the progress-ratio denominator is zero and the unguarded
division makes goal evaluation fail during add_workout (`none`, the
image of Python's ZeroDivisionError); set_goal accepts such goals, so
the state is reachable. -/
theorem goal_zero_division (u : User) (w : Workout) (gt : String) (g : Goal)
    (hmem : (gt, g) ∈ u.goals) (heq : g.target = g.start_value) :
    (u.add_workout w).2 = none :=
  check_goals_list_none (u.add_workout w).1 u.goals gt g hmem heq

/-- A user whose calories goal targets exactly the current value 0,
accepted by set_goal. -/
def zeroGoalUser : User :=
  (mkUser "Bo" 70 none none "beginner").set_goal "calories" 0 10 0

/-- Witness for C6: adding any workout to that user makes goal
evaluation divide by zero. -/
theorem goal_zero_division_witness :
    (zeroGoalUser.add_workout (Workout.init 0)).2 = none :=
  goal_zero_division zeroGoalUser (Workout.init 0) "calories"
    { target := 0, deadline := 10, start_date := 0, start_value := 0 }
    (by decide) rfl

/-- Claim C9: add_workout appends the workout to the user's history and
appends exactly one progress-history entry whose calories and duration
fields are that single workout's own summary totals, not running totals
across the whole history. -/
theorem add_workout_appends (u : User) (w : Workout) :
    (u.add_workout w).1.workouts = u.workouts ++ [w] ∧
    (u.add_workout w).1.progress_history = u.progress_history ++
      [{ date := w.date, calories := w.total_calories_burned,
         duration := w.total_duration }] :=
  ⟨rfl, rfl⟩

/-- One record of the exercise-database catalog: the optional fields
may be missing from the JSON object (`dict.get`). -/
structure CatalogEntry where
  name : String
  duration : Int
  calories_burned_per_minute : Rat
  intensity : Option String
  equipment_needed : Option (List String)
  deriving DecidableEq, Repr

/-- One suggestion dictionary built by `workout_suggester`. -/
structure Suggestion where
  name : String
  duration : Int
  calories_per_minute : Rat
  intensity : String
  equipment : List String
  deriving DecidableEq, Repr

/-- The catalog: a mapping from muscle-group name to entries, modelled
as an association list in JSON order. -/
abbrev Catalog := List (String × List CatalogEntry)

/-- `data.get(muscle_group, [])`. -/
def catalogGet (data : Catalog) (muscle_group : String) : List CatalogEntry :=
  match data.find? (fun p => p.1 == muscle_group) with
  | some p => p.2
  | none => []

/-- Round half to even to an integer, as Python `round` does under the
exact-rational model of floats. -/
def roundHalfEven (x : Rat) : Int :=
  let fl := Int.floor x
  let frac := x - (fl : Rat)
  if frac < (1 : Rat) / 2 then fl
  else if (1 : Rat) / 2 < frac then fl + 1
  else if fl % 2 = 0 then fl else fl + 1

/-- Python `round(x, 2)` under the exact-rational model of floats. -/
def pyRound2 (x : Rat) : Rat := ((roundHalfEven (x * 100) : Int) : Rat) / 100

/-- The literal dictionary `difficulty_multipliers` with
`.get(fitness_level, 1.0)`. -/
def difficulty_multipliers (fitness_level : String) : Rat :=
  if fitness_level = "beginner" then (4 : Rat) / 5
  else if fitness_level = "intermediate" then 1
  else if fitness_level = "advanced" then (6 : Rat) / 5
  else 1

/-- The equipment filter condition of `workout_suggester`:
`not e.get('equipment_needed') or all(eq in available_equipment ...)`
(a missing or empty requirement list is falsy and passes). -/
def equipmentOk (available : List String) (e : CatalogEntry) : Bool :=
  match e.equipment_needed with
  | none => true
  | some req => req.isEmpty || req.all (fun item => available.contains item)

/-- Spec-side filter from the claim text: the entry's required
equipment is a subset of the available set. -/
def specEquipmentSubset (available : List String) (e : CatalogEntry) : Bool :=
  (e.equipment_needed.getD []).all (fun item => available.contains item)

/-- The suggestion dictionary built for one surviving catalog entry:
the adjusted calories-per-minute is rounded to two decimal places, and
the missing optional fields default (`intensity` to medium, equipment
to the empty list). -/
def mkSuggestion (user_weight : Rat) (multiplier : Rat) (e : CatalogEntry) : Suggestion :=
  { name := e.name, duration := e.duration,
    calories_per_minute :=
      pyRound2 (e.calories_burned_per_minute * (user_weight / 70) * multiplier),
    intensity := e.intensity.getD "medium",
    equipment := e.equipment_needed.getD [] }

/-- The comparison of `sorted(..., key=..., reverse=True)`: a suggestion
goes first when its (rounded) calories-per-minute is at least the
other's. -/
def suggestionLe (a b : Suggestion) : Bool :=
  decide (b.calories_per_minute ≤ a.calories_per_minute)

/-- `workout_suggester(muscle_group, user_weight, fitness_level,
available_equipment)` over an explicit catalog: missing muscle group
yields the empty list, a truthy equipment list filters, and the rounded
adjusted calories-per-minute orders the result descending via Python's
stable sort. -/
def workout_suggester (data : Catalog) (muscle_group : String) (user_weight : Rat)
    (fitness_level : String) (available_equipment : Option (List String)) :
    List Suggestion :=
  let exercises := catalogGet data muscle_group
  if exercises.isEmpty then []
  else
    let exercises2 :=
      match available_equipment with
      | some avail =>
          if avail.isEmpty then exercises else exercises.filter (equipmentOk avail)
      | none => exercises
    let multiplier := difficulty_multipliers fitness_level
    let suggestions := exercises2.map (mkSuggestion user_weight multiplier)
    suggestions.mergeSort suggestionLe

theorem suggestionLe_trans : ∀ (a b c : Suggestion),
    suggestionLe a b → suggestionLe b c → suggestionLe a c := by
  intro a b c hab hbc
  simp only [suggestionLe, decide_eq_true_eq] at hab hbc ⊢
  exact le_trans hbc hab

theorem suggestionLe_total : ∀ (a b : Suggestion),
    suggestionLe a b || suggestionLe b a := by
  intro a b
  simp only [suggestionLe, Bool.or_eq_true, decide_eq_true_eq]
  exact le_total b.calories_per_minute a.calories_per_minute

theorem equipmentOk_eq (avail : List String) :
    equipmentOk avail = specEquipmentSubset avail := by
  funext e
  unfold equipmentOk specEquipmentSubset
  cases h : e.equipment_needed with
  | none => simp
  | some req => cases req with
    | nil => simp
    | cons x xs => simp

theorem suggester_filter_eq (data : Catalog) (mg : String) (w : Rat) (fl : String)
    (avail : List String) (hne : avail ≠ []) :
    workout_suggester data mg w fl (some avail) =
      (((catalogGet data mg).filter (specEquipmentSubset avail)).map
        (mkSuggestion w (difficulty_multipliers fl))).mergeSort suggestionLe := by
  have hA : avail.isEmpty = false := by
    cases avail with
    | nil => exact absurd rfl hne
    | cons x xs => rfl
  unfold workout_suggester
  by_cases hemp : (catalogGet data mg).isEmpty
  · have h0 : catalogGet data mg = [] := List.isEmpty_iff.1 hemp
    simp [hemp, h0]
  · simp only [hemp, if_false, Bool.false_eq_true, hA, equipmentOk_eq]

/-- The unsorted suggestion list `workout_suggester` builds before the
final `sorted` call: catalog lookup, the truthiness-guarded equipment
filter and the per-entry dictionaries, in catalog order. -/
def suggesterPre (data : Catalog) (muscle_group : String) (user_weight : Rat)
    (fitness_level : String) (available_equipment : Option (List String)) :
    List Suggestion :=
  let exercises := catalogGet data muscle_group
  let exercises2 :=
    match available_equipment with
    | some avail =>
        if avail.isEmpty then exercises else exercises.filter (equipmentOk avail)
    | none => exercises
  exercises2.map (mkSuggestion user_weight (difficulty_multipliers fitness_level))

theorem workout_suggester_eq_pre (data : Catalog) (mg : String) (w : Rat)
    (fl : String) (ae : Option (List String)) :
    workout_suggester data mg w fl ae =
      (suggesterPre data mg w fl ae).mergeSort suggestionLe := by
  unfold workout_suggester suggesterPre
  by_cases hemp : (catalogGet data mg).isEmpty
  · have h0 : catalogGet data mg = [] := List.isEmpty_iff.1 hemp
    cases ae with
    | none => simp [h0]
    | some avail =>
      by_cases ha : avail.isEmpty <;> simp [h0, ha]
  · simp [hemp]

theorem mergeSort_pairwise_key (l : List Suggestion) :
    (l.mergeSort suggestionLe).Pairwise
      (fun a b => b.calories_per_minute ≤ a.calories_per_minute) := by
  have h := List.sorted_mergeSort suggestionLe_trans suggestionLe_total l
  exact h.imp (by
    intro a b hab
    simpa [suggestionLe, decide_eq_true_eq] using hab)

/-- Claim C4 (amended): a muscle group absent from the catalog yields
the empty list (a valid no-results outcome); when a non-empty
available_equipment list is supplied, exactly the entries whose required
equipment is a subset of it survive (entries requiring no equipment
always pass), while a supplied empty list applies no filtering at all,
identically to supplying no list; and in every case the result is
Python's stable sort of the kept entries, descending on the adjusted
calories-per-minute rounded to two decimal places (catalog value *
(weight / 70) * difficulty multiplier 0.8 / 1.0 / 1.2, default 1.0),
with ties after rounding keeping catalog-relative order. -/
theorem suggester_spec :
    (∀ (data : Catalog) (mg : String) (w : Rat) (fl : String)
        (ae : Option (List String)),
        data.find? (fun p => p.1 == mg) = none →
          workout_suggester data mg w fl ae = []) ∧
    (∀ (data : Catalog) (mg : String) (w : Rat) (fl : String) (avail : List String),
        avail ≠ [] →
          workout_suggester data mg w fl (some avail) =
            (((catalogGet data mg).filter (specEquipmentSubset avail)).map
              (mkSuggestion w (difficulty_multipliers fl))).mergeSort suggestionLe) ∧
    (∀ (data : Catalog) (mg : String) (w : Rat) (fl : String),
        workout_suggester data mg w fl (some []) =
          workout_suggester data mg w fl none) ∧
    (∀ (data : Catalog) (mg : String) (w : Rat) (fl : String)
        (ae : Option (List String)),
        workout_suggester data mg w fl ae =
          (suggesterPre data mg w fl ae).mergeSort suggestionLe) ∧
    (∀ (data : Catalog) (mg : String) (w : Rat) (fl : String)
        (ae : Option (List String)),
        (workout_suggester data mg w fl ae).Pairwise
          (fun a b => b.calories_per_minute ≤ a.calories_per_minute)) ∧
    (∀ (data : Catalog) (mg : String) (w : Rat) (fl : String)
        (ae : Option (List String)) (a b : Suggestion),
        a.calories_per_minute = b.calories_per_minute →
        List.Sublist [a, b] (suggesterPre data mg w fl ae) →
        List.Sublist [a, b] (workout_suggester data mg w fl ae)) := by
  refine ⟨?_, ?_, ?_, ?_, ?_, ?_⟩
  · intro data mg w fl ae hfind
    have h0 : catalogGet data mg = [] := by
      unfold catalogGet
      rw [hfind]
    simp [workout_suggester, h0]
  · intro data mg w fl avail hne
    exact suggester_filter_eq data mg w fl avail hne
  · intro data mg w fl
    rfl
  · intro data mg w fl ae
    exact workout_suggester_eq_pre data mg w fl ae
  · intro data mg w fl ae
    rw [workout_suggester_eq_pre]
    exact mergeSort_pairwise_key _
  · intro data mg w fl ae a b hkey hsub
    rw [workout_suggester_eq_pre]
    refine List.pair_sublist_mergeSort suggestionLe_trans suggestionLe_total ?_ hsub
    simp [suggestionLe, hkey]

/-- A catalog entry requiring a dumbbell. -/
def dumbbellRowEntry : CatalogEntry :=
  { name := "Dumbbell Row", duration := 10, calories_burned_per_minute := 6,
    intensity := some "medium", equipment_needed := some ["dumbbell"] }

/-- A catalog holding only the dumbbell entry. -/
def catalogA : Catalog := [("Legs", [dumbbellRowEntry])]

/-- Catalog value 1.001 calories per minute. -/
def entryA : CatalogEntry :=
  { name := "EntryA", duration := 10, calories_burned_per_minute := 1001 / 1000,
    intensity := none, equipment_needed := none }

/-- Catalog value 1.002 calories per minute, listed after EntryA. -/
def entryB : CatalogEntry :=
  { name := "EntryB", duration := 10, calories_burned_per_minute := 1002 / 1000,
    intensity := none, equipment_needed := none }

/-- A catalog holding EntryA before EntryB. -/
def catalogB : Catalog := [("Legs", [entryA, entryB])]

/-- The suggestion built from EntryA at weight 70, intermediate. -/
def sugA : Suggestion := mkSuggestion 70 (difficulty_multipliers "intermediate") entryA

/-- The suggestion built from EntryB at weight 70, intermediate. -/
def sugB : Suggestion := mkSuggestion 70 (difficulty_multipliers "intermediate") entryB

theorem difficulty_intermediate : difficulty_multipliers "intermediate" = 1 := by
  simp [difficulty_multipliers]

theorem sugA_calories : sugA.calories_per_minute = 1 := by
  have harg : entryA.calories_burned_per_minute * ((70 : Rat) / 70) *
      difficulty_multipliers "intermediate" * 100 = 1001 / 10 := by
    rw [difficulty_intermediate]
    norm_num [entryA]
  have hfl : Int.floor ((1001 : Rat) / 10) = 100 := by norm_num
  simp only [sugA, mkSuggestion, pyRound2, roundHalfEven]
  rw [harg, hfl]
  norm_num

theorem sugB_calories : sugB.calories_per_minute = 1 := by
  have harg : entryB.calories_burned_per_minute * ((70 : Rat) / 70) *
      difficulty_multipliers "intermediate" * 100 = 1002 / 10 := by
    rw [difficulty_intermediate]
    norm_num [entryB]
  have hfl : Int.floor ((1002 : Rat) / 10) = 100 := by norm_num
  simp only [sugB, mkSuggestion, pyRound2, roundHalfEven]
  rw [harg, hfl]
  norm_num

/-- Claim C4 counterexample.  First defect: with an empty supplied
equipment list, the truthiness test skips filtering, so the entry
requiring a dumbbell is kept although its requirement is not a subset
of the empty set.  Second defect: the sort key is the adjusted value
rounded to two decimals, so EntryA (adjusted 1.001) and EntryB
(adjusted 1.002) tie after rounding and keep catalog order EntryA
before EntryB, although descending order on the unrounded adjusted
values would put EntryB first. -/
theorem suggester_counterexample :
    ((workout_suggester catalogA "Legs" 70 "intermediate" (some [])).map
        Suggestion.name = ["Dumbbell Row"]) ∧
    specEquipmentSubset [] dumbbellRowEntry = false ∧
    ((workout_suggester catalogB "Legs" 70 "intermediate" none).map
        Suggestion.name = ["EntryA", "EntryB"]) ∧
    entryA.calories_burned_per_minute * ((70 : Rat) / 70) *
        difficulty_multipliers "intermediate"
      < entryB.calories_burned_per_minute * ((70 : Rat) / 70) *
        difficulty_multipliers "intermediate" := by
  refine ⟨?_, rfl, ?_, ?_⟩
  · have hstep : workout_suggester catalogA "Legs" 70 "intermediate" (some []) =
        List.mergeSort
          [mkSuggestion 70 (difficulty_multipliers "intermediate") dumbbellRowEntry]
          suggestionLe := rfl
    rw [hstep, List.mergeSort_singleton]
    rfl
  · have hle : suggestionLe sugA sugB = true := by
      simp [suggestionLe, sugA_calories, sugB_calories]
    have hstep : workout_suggester catalogB "Legs" 70 "intermediate" none =
        List.mergeSort [sugA, sugB] suggestionLe := rfl
    have hsub := List.pair_sublist_mergeSort suggestionLe_trans suggestionLe_total
      hle (List.Sublist.refl [sugA, sugB])
    have hlen : ([sugA, sugB].length) =
        (List.mergeSort [sugA, sugB] suggestionLe).length := by
      simp
    have hsort : List.mergeSort [sugA, sugB] suggestionLe = [sugA, sugB] :=
      (hsub.eq_of_length hlen).symm
    rw [hstep, hsort]
    rfl
  · rw [difficulty_intermediate]
    norm_num [entryA, entryB]

/-- A catalog entry requiring only a mat. -/
def matEntry : CatalogEntry :=
  { name := "Mat Crunch", duration := 8, calories_burned_per_minute := 4,
    intensity := some "low", equipment_needed := some ["mat"] }

/-- A catalog mixing the dumbbell entry and the mat entry under one
muscle-group key. -/
def catalogMixed : Catalog := [("Legs", [dumbbellRowEntry, matEntry])]

/-- Witness for the amended C4: a missing muscle group gives the empty
list; supplying ["mat"] against the mixed catalog exercises the subset
filter, which drops the dumbbell entry and keeps the mat entry; and the
rounding-tied pair EntryA, EntryB stays in catalog order inside the
output of the call that supplies no equipment list. -/
theorem suggester_spec_witness :
    workout_suggester [] "Legs" 70 "intermediate" none = [] ∧
    workout_suggester catalogMixed "Legs" 70 "intermediate" (some ["mat"]) =
      (((catalogGet catalogMixed "Legs").filter (specEquipmentSubset ["mat"])).map
        (mkSuggestion 70 (difficulty_multipliers "intermediate"))).mergeSort
        suggestionLe ∧
    List.Sublist [sugA, sugB]
      (workout_suggester catalogB "Legs" 70 "intermediate" none) :=
  ⟨suggester_spec.1 [] "Legs" 70 "intermediate" none rfl,
   suggester_spec.2.1 catalogMixed "Legs" 70 "intermediate" ["mat"] (by decide),
   suggester_spec.2.2.2.2.2 catalogB "Legs" 70 "intermediate" none sugA sugB
     (sugA_calories.trans sugB_calories.symm) (List.Sublist.refl [sugA, sugB])⟩

end FitnessTracker
